import Mathlib

/-!
Shallow embedding of the `ulogger` library (spotify/ulogger) and proofs
about its handler-configuration logic.

The embedding covers:
* `ulogger/syslog.py` — `SyslogHandlerBuilder`: environment classification,
  address/protocol/facility resolution, formatter selection;
* `ulogger/ulogger.py` — `_setup_default_handler` (stream handler) and the
  `setup_logging` dispatcher;
* `ulogger/stackdriver.py` — `CloudLoggingHandlerBuilder._get_metadata`
  and `get_formatter`.

External collaborators (the process environment, the platform check, the
module import machinery, the HTTP client, the stdlib level-name table)
are modelled as explicit parameters, so every definition stays executable.
-/

namespace ULogger

/-- The process environment: `os.environ.get k` returns `none` when the
variable is unset, `some v` (possibly `some ""`) when set. -/
def Env : Type := String → Option String

/-- Python truthiness of an optional string: `None` and `''` are falsy,
every other string is truthy. -/
def optTruthy : Option String → Bool
  | none => false
  | some s => s ≠ ""

/-- Models the Python idiom `x if x else d` / `if not x: x = d` applied to
an optional string: a falsy value (absent or empty) is replaced by the
default `d`. -/
def pyOr (x : Option String) (d : String) : String :=
  match x with
  | some s => if s ≠ "" then s else d
  | none => d

/-- Models the Python idiom `x or d` applied to an optional integer
(`proto or 2`, `facility or self.FACILITY` in `SyslogHandlerBuilder.__init__`):
`None` and `0` are falsy and give the default. -/
def pyOrInt (x : Option Int) (d : Int) : Int :=
  match x with
  | some n => if n ≠ 0 then n else d
  | none => d

/-- A Python value that can appear as the port component of an explicit
syslog address: an integer or a string. -/
inductive PyVal : Type
  | vint (n : Int)
  | vstr (s : String)
deriving DecidableEq, Repr

/-- Strip leading and trailing whitespace, as Python `int()` does before
parsing a string. -/
def pyTrim (cs : List Char) : List Char :=
  ((cs.dropWhile Char.isWhitespace).reverse.dropWhile Char.isWhitespace).reverse

/-- Accumulate the value of a run of decimal digits; `none` on the first
non-digit character. -/
def digitsValAux : Nat → List Char → Option Nat
  | acc, [] => some acc
  | acc, c :: rest =>
    if c.isDigit then digitsValAux (acc * 10 + (c.toNat - 48)) rest else none

/-- Parse an optionally signed decimal integer; `none` on anything else. -/
def parseDecInt : List Char → Option Int
  | [] => none
  | '-' :: rest =>
    if rest = [] then none else (digitsValAux 0 rest).map (fun n => -(n : Int))
  | '+' :: rest =>
    if rest = [] then none else (digitsValAux 0 rest).map (fun n => (n : Int))
  | cs => (digitsValAux 0 cs).map (fun n => (n : Int))

/-- Python `int(x)` on a port value; string parsing is approximated by an
optionally signed decimal integer with surrounding whitespace allowed.
`none` models the `ValueError` raised on malformed input. -/
def pyInt : PyVal → Option Int
  | .vint n => some n
  | .vstr s => parseDecInt (pyTrim s.data)

/-- An explicit `address` argument to `SyslogHandlerBuilder`: either a
string (filesystem path) or a `(host, port)` pair, where the port may be
`None`, an integer, or a string. -/
inductive PyAddr : Type
  | str (s : String)
  | pair (host : String) (port : Option PyVal)
deriving DecidableEq, Repr

/-- Python truthiness of the optional `address` argument (`if address:` in
`_get_address`): `None` and `''` are falsy; a 2-tuple is always truthy. -/
def addrTruthy : Option PyAddr → Bool
  | none => false
  | some (.str s) => s ≠ ""
  | some (.pair _ _) => true

/-- The address actually handed to `logging.handlers.SysLogHandler`:
a filesystem path (string) or a `(host, port)` socket address. -/
inductive ResolvedAddr : Type
  | path (s : String)
  | sock (host : String) (port : Int)
deriving DecidableEq, Repr

/-- `logging.handlers.SYSLOG_UDP_PORT` (stdlib constant). -/
def SYSLOG_UDP_PORT : Int := 514

/-- `SyslogHandlerBuilder.FACILITY = logging.handlers.SysLogHandler.LOG_LOCAL0`
(stdlib constant, value 16). -/
def FACILITY : Int := 16

/-- `SyslogHandlerBuilder._get_environ`: classification is `remote` when
`SYSLOG_HOST` is set to a truthy (non-empty) value, else `darwin` when the
platform starts with `darwin` and `/var/run/syslog` exists, else `default`.
The platform test and the filesystem test are passed in as booleans. -/
def get_environ (env : Env) (platformDarwin varRunSyslogExists : Bool) : String :=
  if optTruthy (env "SYSLOG_HOST") then "remote"
  else if platformDarwin && varRunSyslogExists then "darwin"
  else "default"

/-- The environment-default branch of `SyslogHandlerBuilder._get_address`
(reached when the explicit `address` argument is falsy): the dict lookup
keyed by the classification, with the `remote` entry built from
`SYSLOG_HOST` and `SYSLOG_PORT` and its port coerced by `int()`. -/
def get_address_env_default (env : Env) (environ : String) :
    Except String ResolvedAddr :=
  if environ = "remote" then
    -- host is os.environ.get('SYSLOG_HOST'); classification 'remote'
    -- guarantees it is present, so the fallback "" is unreachable there
    let host := (env "SYSLOG_HOST").getD ""
    match env "SYSLOG_PORT" with
    | none => .ok (.sock host SYSLOG_UDP_PORT)
    | some ps =>
      match pyInt (.vstr ps) with
      | some n => .ok (.sock host n)
      | none => .error "invalid literal for int() with base 10"
  else if environ = "darwin" then .ok (.path "/var/run/syslog")
  else .ok (.path "/dev/log")

/-- `SyslogHandlerBuilder._get_address`. `environ` is the classification
computed by `_get_environ`. A falsy explicit address (`None` or `''`)
falls through to the environment-based defaults (`if address:` in the
source). `.error` models the `ValueError` raised by `int()` on a
malformed port. -/
def get_address (env : Env) (environ : String) (address : Option PyAddr) :
    Except String ResolvedAddr :=
  match address with
  | none => get_address_env_default env environ
  | some (.str s) =>
    if s ≠ "" then .ok (.path s) else get_address_env_default env environ
  | some (.pair host port) =>
    match port with
    | none => .ok (.sock host SYSLOG_UDP_PORT)
    | some p =>
      match pyInt p with
      | some n => .ok (.sock host n)
      | none => .error "invalid literal for int() with base 10"

/-- The state of a `SyslogHandlerBuilder` after `__init__`. -/
structure SyslogBuilder : Type where
  progname : String
  environ : String
  fmt : Option String
  datefmt : Option String
  facility : Int
  address : ResolvedAddr
  proto : Int
deriving DecidableEq, Repr

/-- `SyslogHandlerBuilder.__init__`: computes the classification, resolves
the address, and applies the `or`-defaults for facility and proto. -/
def mkSyslogBuilder (env : Env) (platformDarwin varRunSyslogExists : Bool)
    (progname : String) (address : Option PyAddr) (proto facility : Option Int)
    (fmt datefmt : Option String) : Except String SyslogBuilder :=
  match get_address env (get_environ env platformDarwin varRunSyslogExists) address with
  | .error e => .error e
  | .ok addr =>
    .ok { progname := progname
          environ := get_environ env platformDarwin varRunSyslogExists
          fmt := fmt
          datefmt := datefmt
          facility := pyOrInt facility FACILITY
          address := addr
          proto := pyOrInt proto 2 }

/-- A configured `logging.Formatter`: the format string and the optional
date-format string (`None` when `logging.Formatter` gets no `datefmt`). -/
structure Formatter : Type where
  fmt : String
  datefmt : Option String
deriving DecidableEq, Repr

/-- `SyslogHandlerBuilder._get_osx_formatter`: default format
`progname + ' (%(process)d): %(message)s'` when `fmt` is falsy; no
`datefmt` is ever passed to `logging.Formatter` in this branch. -/
def get_osx_formatter (b : SyslogBuilder) : Formatter :=
  { fmt := pyOr b.fmt (b.progname ++ " (%(process)d): %(message)s")
    datefmt := none }

/-- `SyslogHandlerBuilder._get_default_formatter`. -/
def get_default_formatter (b : SyslogBuilder) : Formatter :=
  { fmt := pyOr b.fmt
      ("%(asctime)s.%(msecs)03dZ " ++ b.progname ++ " (%(process)d): %(message)s")
    datefmt := some (pyOr b.datefmt "%Y-%m-%dT%H:%M:%S") }

/-- `SyslogHandlerBuilder.get_formatter`: darwin environment uses the OS X
formatter, every other classification the default formatter. -/
def get_formatter (b : SyslogBuilder) : Formatter :=
  if b.environ = "darwin" then get_osx_formatter b else get_default_formatter b

/-- Python exceptions relevant to the library.

Modelled from the spec: `ulogger/exceptions.py` is not under `src/` (only
its importers are); per the spec it defines the configuration-error kind
raised by the dispatcher (`ULoggerError`) and the cloud-provider-error
kind raised by the metadata fetch (`GoogleCloudError`). `valueError`
models the stdlib `ValueError` (malformed port / unknown level). -/
inductive PyError : Type
  | uloggerError (msg : String)
  | googleCloudError (msg : String)
  | valueError (msg : String)
deriving DecidableEq, Repr

/-- A configured handler object, as far as the dispatcher claims need to
distinguish them: the stream handler with its formatter, the syslog
handler with its configuration, or an opaque handler returned by a
dynamically resolved module. -/
inductive Handler : Type
  | stream (f : Formatter)
  | syslog (address : ResolvedAddr) (facility proto : Int) (f : Formatter)
  | custom (tag : String)
deriving DecidableEq, Repr

/-- `_setup_default_handler` in `ulogger/ulogger.py`: a stream handler
whose formatter applies the truthiness-tested defaults for `fmt` and
`datefmt`. -/
def setup_default_handler (progname : String) (fmt datefmt : Option String) :
    Handler :=
  .stream
    { fmt := pyOr fmt
        ("%(asctime)s.%(msecs)03dZ " ++ progname
          ++ " (%(process)d) %(levelname)s: " ++ "%(message)s")
      datefmt := some (pyOr datefmt "%Y-%m-%dT%H:%M:%S") }

/-- `ulogger.syslog.get_handler` (module-level helper): builds a
`SyslogHandlerBuilder` and returns the configured syslog handler.
The `ValueError` from a malformed port propagates unwrapped. -/
def syslog_get_handler (env : Env) (platformDarwin varRunSyslogExists : Bool)
    (progname : String) (address : Option PyAddr) (proto facility : Option Int)
    (fmt datefmt : Option String) : Except PyError Handler :=
  match mkSyslogBuilder env platformDarwin varRunSyslogExists progname address
      proto facility fmt datefmt with
  | .error e => .error (.valueError e)
  | .ok b => .ok (.syslog b.address b.facility b.proto (get_formatter b))

/-- A dynamically imported handler module, as the dispatcher sees it: it
may or may not expose a `get_handler` attribute (`none` models the
`AttributeError` from `getattr`). The attribute takes the program name
and the forwarded keyword arguments (modelled as `fmt`/`datefmt`) and may
itself raise. -/
structure HandlerModule : Type where
  get_handler : Option (String → Option String → Option String → Except PyError Handler)

/-- The import machinery: `import_module path` returns a module or raises
`ImportError` (modelled as `none`). -/
def Imports : Type := String → Option HandlerModule

/-- The mutable state of the root logger (`logging.getLogger('')`):
its attached handlers, in attach order, and its severity threshold. -/
structure RootLogger : Type where
  handlers : List Handler
  level : Int
deriving DecidableEq, Repr

/-- The stdlib level-name table: `logging.getLevelName` on the standard
severity names (collaborator, modelled); `none` for unknown names, for
which `Logger.setLevel` raises `ValueError`. -/
def getLevelName (level : String) : Option Int :=
  if level = "CRITICAL" then some 50
  else if level = "FATAL" then some 50
  else if level = "ERROR" then some 40
  else if level = "WARNING" then some 30
  else if level = "WARN" then some 30
  else if level = "INFO" then some 20
  else if level = "DEBUG" then some 10
  else if level = "NOTSET" then some 0
  else none

/-- The per-entry body of the `for h in handlers:` loop in
`setup_logging`, up to the `addHandler` call: the literal `stream` builds
the default stream handler; any other name is resolved as module
`ulogger.{h}` (ImportError → `ULoggerError` "Unsupported log handler"),
whose `get_handler` attribute is fetched (AttributeError → `ULoggerError`
"not implemented") and invoked with the forwarded keyword arguments. -/
def buildHandler (imports : Imports) (progname : String)
    (fmt datefmt : Option String) (h : String) : Except PyError Handler :=
  if h = "stream" then .ok (setup_default_handler progname fmt datefmt)
  else
    match imports ("ulogger." ++ h) with
    | none =>
      .error (.uloggerError ("Unsupported log handler: \"" ++ (h ++ "\".")))
    | some m =>
      match m.get_handler with
      | none =>
        .error (.uloggerError
          ("\"get_handler\" function not implemented for \"" ++ (h ++ "\".")))
      | some f => f progname fmt datefmt

/-- The `for h in handlers:` loop of `setup_logging`: each successfully
built handler is appended to the root logger's handler list; the first
failure aborts the loop, leaving the handlers attached so far in place. -/
def attachHandlers (imports : Imports) (progname : String)
    (fmt datefmt : Option String) :
    List String → RootLogger → RootLogger × Option PyError
  | [], root => (root, none)
  | h :: rest, root =>
    match buildHandler imports progname fmt datefmt h with
    | .error e => (root, some e)
    | .ok hd =>
      attachHandlers imports progname fmt datefmt rest
        { root with handlers := root.handlers ++ [hd] }

/-- `setup_logging` in `ulogger/ulogger.py`: run the handler loop, then
set the root logger's level from the level name. A raised exception is
returned alongside the state the root logger was left in. -/
def setup_logging (imports : Imports) (progname level : String)
    (handlers : List String) (fmt datefmt : Option String)
    (root : RootLogger) : RootLogger × Option PyError :=
  match attachHandlers imports progname fmt datefmt handlers root with
  | (root1, some e) => (root1, some e)
  | (root1, none) =>
    match getLevelName level with
    | some lv => ({ root1 with level := lv }, none)
    | none => (root1, some (.valueError ("Unknown level: " ++ level)))

/-- Sequentially build every handler in the list, collecting the results;
the first failure wins. Used to state "every handler builds successfully"
/ "the first N-1 build successfully" in the dispatcher theorems. -/
def buildAll (imports : Imports) (progname : String)
    (fmt datefmt : Option String) : List String → Except PyError (List Handler)
  | [] => .ok []
  | h :: rest =>
    match buildHandler imports progname fmt datefmt h with
    | .error e => .error e
    | .ok hd =>
      match buildAll imports progname fmt datefmt rest with
      | .error e => .error e
      | .ok tl => .ok (hd :: tl)

/-- The outcome of one `requests.get` call as the metadata fetch sees it:
either the client raised a `requests.exceptions.RequestException`
(network/transport error), or a response with a status code and a body
came back. -/
inductive HttpOutcome : Type
  | exn (e : String)
  | resp (status : Nat) (body : String)
deriving DecidableEq, Repr

/-- The HTTP client: maps the requested URL to its outcome. -/
def Http : Type := String → HttpOutcome

/-- `CloudLoggingHandlerBuilder.METADATA_ENDPOINT` instantiated with
`data_type` and `key` (`str.format` on the template). -/
def metadataEndpoint (data_type key : String) : String :=
  "http://metadata.google.internal/computeMetadata/v1/"
    ++ (data_type ++ ("/" ++ key))

/-- `requests.Response.raise_for_status` raises `HTTPError` exactly for
client-error (4xx) and server-error (5xx) status codes. -/
def raiseForStatusFails (status : Nat) : Bool :=
  400 ≤ status && status < 600

/-- `CloudLoggingHandlerBuilder._get_metadata`: one GET to the metadata
endpoint; a `RequestException` (raised by the call itself or by
`raise_for_status`) is wrapped in a `GoogleCloudError` naming the key,
data type and URL; a body that is empty after stripping raises a
`GoogleCloudError` naming the URL; otherwise the body is returned.
The second component records the URLs requested, in order — exactly one
request is attempted, with no retry. -/
def get_metadata (http : Http) (data_type key : String) :
    Except PyError String × List String :=
  let url := metadataEndpoint data_type key
  let wrapped : String → PyError := fun e =>
    .googleCloudError
      (("Could not fetch \"" ++ (key ++ ("\" from \"" ++ (data_type
          ++ "\" metadata using \"")))) ++ (url ++ ("\"." ++ ("Error: " ++ e))))
  let outcome : Except PyError String :=
    match http url with
    | .exn e => .error (wrapped e)
    | .resp status body =>
      if raiseForStatusFails status then
        -- raise_for_status's HTTPError text (a RequestException) is
        -- caught by the same handler; its exact wording is opaque here
        .error (wrapped (toString status ++ " Error"))
      else if pyTrim body.data = [] then
        -- Python: metadata_value.strip() == ''
        .error (.googleCloudError
          ("Error when fetching metadata from \"" ++ (url
              ++ "\": server returned an empty value.")))
      else .ok body
  (outcome, [url])

/-- The fields of `CloudLoggingHandlerBuilder` that `get_formatter`
reads (the metadata-derived hostname plus the formatting arguments). -/
structure CloudBuilderView : Type where
  progname : String
  hostname : String
  fmt : Option String
  datefmt : Option String
deriving DecidableEq, Repr

/-- `CloudLoggingHandlerBuilder.get_formatter`: truthiness-tested
defaults, the format string embedding the hostname and program name. -/
def cloud_get_formatter (b : CloudBuilderView) : Formatter :=
  { fmt := pyOr b.fmt
      ("%(asctime)s.%(msecs)03d " ++ b.hostname ++ " " ++ b.progname
        ++ " (%(process)d): %(message)s")
    datefmt := some (pyOr b.datefmt "%Y-%m-%dT%H:%M:%S") }

/-- `t` occurs as a contiguous substring of `s`. -/
def strContains (s t : String) : Prop :=
  ∃ a b, s = a ++ (t ++ b)

/-- A concrete import environment for witnesses: only the real
`ulogger.syslog` module is importable, its `get_handler` running on a
host with an empty environment and a non-darwin platform. -/
def demoImports : Imports := fun p =>
  if p = "ulogger.syslog" then
    some { get_handler := fun pn fmt datefmt =>
      syslog_get_handler (fun _ => none) false false pn none none none fmt datefmt }
  else none

/-! ## Helper lemmas -/

theorem pyOrInt_some_of_ne (n d : Int) (h : n ≠ 0) : pyOrInt (some n) d = n := by
  simp [pyOrInt, h]

theorem pyOrInt_default (x : Option Int) (d : Int)
    (h : x = none ∨ x = some 0) : pyOrInt x d = d := by
  rcases h with h | h <;> simp [h, pyOrInt]

theorem mkSyslogBuilder_fields (env : Env) (pd vrs : Bool) (progname : String)
    (address : Option PyAddr) (proto facility : Option Int)
    (fmt datefmt : Option String) (b : SyslogBuilder)
    (hb : mkSyslogBuilder env pd vrs progname address proto facility fmt datefmt
      = .ok b) :
    b.proto = pyOrInt proto 2 ∧ b.facility = pyOrInt facility FACILITY := by
  unfold mkSyslogBuilder at hb
  split at hb
  · exact absurd hb (by simp)
  · simp only [Except.ok.injEq] at hb
    subst hb
    exact ⟨rfl, rfl⟩

/-! ## C1 — syslog address resolution -/

/-- C1 (claim as stated is refuted here): an explicit address given as the
empty string is not resolved verbatim — it is falsy, so the
environment-based default `/dev/log` is used instead. -/
theorem C1_counterexample :
    get_address (fun _ => none) "default" (some (.str "")) = .ok (.path "/dev/log")
      ∧ ResolvedAddr.path "/dev/log" ≠ .path "" :=
  ⟨rfl, by decide⟩

/-- C1 (amended): for an explicit `(host, port)` pair the resolved address
is `(host, 514)` when the port is `None` and `(host, int(port))` otherwise;
an explicit non-empty string is resolved verbatim; a falsy explicit address
(`None` or the empty string) falls back to the classification defaults:
`/dev/log` for `default`, `/var/run/syslog` for `darwin`, and
`(SYSLOG_HOST, int(SYSLOG_PORT) or 514)` for `remote`. -/
theorem C1_address_resolution (env : Env) (environ : String) :
    (∀ host, get_address env environ (some (.pair host none))
      = .ok (.sock host 514)) ∧
    (∀ host p n, pyInt p = some n →
      get_address env environ (some (.pair host (some p))) = .ok (.sock host n)) ∧
    (∀ s, s ≠ "" → get_address env environ (some (.str s)) = .ok (.path s)) ∧
    (∀ a, addrTruthy a = false →
      get_address env environ a = get_address env environ none) ∧
    (get_address env "default" none = .ok (.path "/dev/log")) ∧
    (get_address env "darwin" none = .ok (.path "/var/run/syslog")) ∧
    (∀ h, env "SYSLOG_HOST" = some h →
      (env "SYSLOG_PORT" = none →
        get_address env "remote" none = .ok (.sock h 514)) ∧
      (∀ ps n, env "SYSLOG_PORT" = some ps → pyInt (.vstr ps) = some n →
        get_address env "remote" none = .ok (.sock h n))) := by
  refine ⟨fun host => rfl, fun host p n hpn => ?_, fun s hs => ?_,
    fun a ha => ?_, rfl, rfl, fun h hh => ⟨fun hp => ?_, fun ps n hps hn => ?_⟩⟩
  · simp [get_address, hpn]
  · simp [get_address, hs]
  · cases a with
    | none => rfl
    | some pa =>
      cases pa with
      | str s =>
        simp only [addrTruthy, ne_eq, decide_not, Bool.not_eq_false',
          decide_eq_true_eq] at ha
        simp [get_address, ha]
      | pair host port => simp [addrTruthy] at ha
  · simp [get_address, get_address_env_default, hh, hp, SYSLOG_UDP_PORT]
  · simp [get_address, get_address_env_default, hh, hps, hn]

/-- C1 witness: concrete instantiations of the amended theorem. -/
theorem C1_address_resolution_witness :
    (pyInt (.vstr " 6514 ") = some 6514 ∧
      get_address (fun _ => none) "default"
        (some (.pair "loghost" (some (.vstr " 6514 "))))
        = .ok (.sock "loghost" 6514)) ∧
    (get_address (fun k => if k = "SYSLOG_HOST" then some "rhost" else none)
        "remote" none = .ok (.sock "rhost" 514)) :=
  ⟨⟨by decide,
    (C1_address_resolution (fun _ => none) "default").2.1 "loghost"
      (.vstr " 6514 ") 6514 (by decide)⟩,
   ((C1_address_resolution
        (fun k => if k = "SYSLOG_HOST" then some "rhost" else none)
        "remote").2.2.2.2.2.2 "rhost" rfl).1 rfl⟩

/-! ## C2 — environment classification -/

/-- C2 (claim as stated is refuted here): with `SYSLOG_HOST` set to the
empty string on a darwin host with `/var/run/syslog` present, the
classification is `darwin`, not `remote` — the code tests truthiness,
not presence. -/
theorem C2_counterexample :
    (fun k => if k = "SYSLOG_HOST" then some "" else none) "SYSLOG_HOST"
      = some "" ∧
    get_environ (fun k => if k = "SYSLOG_HOST" then some "" else none) true true
      = "darwin" ∧
    ("darwin" : String) ≠ "remote" :=
  ⟨rfl, rfl, by decide⟩

/-- C2 (amended): whenever `SYSLOG_HOST` is set to a non-empty value, the
classification computed at builder construction is `remote`, regardless of
platform and of whether `/var/run/syslog` exists. -/
theorem C2_remote_classification (env : Env) (pd vrs : Bool) (h : String)
    (hset : env "SYSLOG_HOST" = some h) (hne : h ≠ "") :
    get_environ env pd vrs = "remote" := by
  simp [get_environ, optTruthy, hset, hne]

/-- C2 witness: a concrete environment with `SYSLOG_HOST` set. -/
theorem C2_remote_classification_witness :
    (fun k => if k = "SYSLOG_HOST" then some "log.example.com" else none)
      "SYSLOG_HOST" = some "log.example.com" ∧
    ("log.example.com" : String) ≠ "" ∧
    get_environ (fun k => if k = "SYSLOG_HOST" then some "log.example.com" else none)
      true true = "remote" :=
  ⟨rfl, by decide,
    C2_remote_classification _ true true "log.example.com" rfl (by decide)⟩

/-! ## C3 — syslog formatter selection -/

/-- C3 (claim as stated is refuted here): in the `darwin` environment an
explicitly given `datefmt` is not used — `_get_osx_formatter` never
passes a date format to `logging.Formatter`. -/
theorem C3_counterexample :
    get_formatter { progname := "prog", environ := "darwin", fmt := none,
                    datefmt := some "%H:%M", facility := 16,
                    address := .path "/var/run/syslog", proto := 2 }
      = { fmt := "prog (%(process)d): %(message)s", datefmt := none } ∧
    (none : Option String) ≠ some "%H:%M" :=
  ⟨rfl, by decide⟩

/-- C3 (amended): with classification `darwin` and falsy `fmt`, the format
is `progname + ' (%(process)d): %(message)s'` with no date format; with any
other classification and falsy `fmt`/`datefmt`, the format is
`'%(asctime)s.%(msecs)03dZ ' + progname + ' (%(process)d): %(message)s'`
with date format `%Y-%m-%dT%H:%M:%S`; an explicit truthy `fmt` is used
unchanged in every environment, and an explicit truthy `datefmt` is used
unchanged in non-darwin environments but ignored under `darwin`. -/
theorem C3_formatter_selection (b : SyslogBuilder) :
    (b.environ = "darwin" → optTruthy b.fmt = false →
      get_formatter b
        = { fmt := b.progname ++ " (%(process)d): %(message)s",
            datefmt := none }) ∧
    (b.environ = "darwin" → ∀ f, b.fmt = some f → f ≠ "" →
      get_formatter b = { fmt := f, datefmt := none }) ∧
    (b.environ ≠ "darwin" → optTruthy b.fmt = false → optTruthy b.datefmt = false →
      get_formatter b
        = { fmt := "%(asctime)s.%(msecs)03dZ " ++ b.progname
              ++ " (%(process)d): %(message)s",
            datefmt := some "%Y-%m-%dT%H:%M:%S" }) ∧
    (b.environ ≠ "darwin" → ∀ f, b.fmt = some f → f ≠ "" →
      (get_formatter b).fmt = f) ∧
    (b.environ ≠ "darwin" → ∀ d, b.datefmt = some d → d ≠ "" →
      (get_formatter b).datefmt = some d) ∧
    (b.environ = "darwin" → (get_formatter b).datefmt = none) := by
  refine ⟨fun hd hf => ?_, fun hd f hf hfe => ?_, fun hd hf hdf => ?_,
    fun hd f hf hfe => ?_, fun hd d hdt hde => ?_, fun hd => ?_⟩
  · cases hb : b.fmt with
    | none => simp [get_formatter, get_osx_formatter, pyOr, hd, hb]
    | some s =>
      rw [hb] at hf
      simp only [optTruthy, ne_eq, decide_not, Bool.not_eq_false',
        decide_eq_true_eq] at hf
      simp [get_formatter, get_osx_formatter, pyOr, hd, hb, hf]
  · simp [get_formatter, get_osx_formatter, pyOr, hd, hf, hfe]
  · cases hb : b.fmt with
    | none =>
      cases hdb : b.datefmt with
      | none => simp [get_formatter, get_default_formatter, pyOr, hd, hb, hdb]
      | some t =>
        rw [hdb] at hdf
        simp only [optTruthy, ne_eq, decide_not, Bool.not_eq_false',
          decide_eq_true_eq] at hdf
        simp [get_formatter, get_default_formatter, pyOr, hd, hb, hdb, hdf]
    | some s =>
      rw [hb] at hf
      simp only [optTruthy, ne_eq, decide_not, Bool.not_eq_false',
        decide_eq_true_eq] at hf
      cases hdb : b.datefmt with
      | none => simp [get_formatter, get_default_formatter, pyOr, hd, hb, hdb, hf]
      | some t =>
        rw [hdb] at hdf
        simp only [optTruthy, ne_eq, decide_not, Bool.not_eq_false',
          decide_eq_true_eq] at hdf
        simp [get_formatter, get_default_formatter, pyOr, hd, hb, hdb, hf, hdf]
  · simp [get_formatter, get_default_formatter, pyOr, hd, hf, hfe]
  · simp [get_formatter, get_default_formatter, pyOr, hd, hdt, hde]
  · simp [get_formatter, get_osx_formatter, hd]

/-- C3 witness: the darwin default branch at a concrete builder. -/
theorem C3_formatter_selection_witness :
    get_formatter { progname := "bar", environ := "darwin", fmt := none,
                    datefmt := none, facility := 16,
                    address := .path "/var/run/syslog", proto := 2 }
      = { fmt := "bar (%(process)d): %(message)s", datefmt := none } :=
  (C3_formatter_selection _).1 rfl rfl

/-! ## C4 — protocol and facility defaults -/

/-- C4 (claim as stated is refuted here): explicit `proto = 0` and
`facility = 0` are given but not used — `proto or 2` and
`facility or self.FACILITY` treat `0` as absent, yielding `2` and `16`. -/
theorem C4_counterexample :
    mkSyslogBuilder (fun _ => none) false false "prog" none (some 0) (some 0)
        none none
      = .ok { progname := "prog", environ := "default", fmt := none,
              datefmt := none, facility := 16, address := .path "/dev/log",
              proto := 2 } ∧
    (16 : Int) ≠ 0 ∧ (2 : Int) ≠ 0 :=
  ⟨rfl, by decide, by decide⟩

/-- C4 (amended): the resolved protocol equals the explicit proto argument
whenever a nonzero one is given and equals 2 (UDP) when the argument is
absent or `0`; the resolved facility equals the explicit facility argument
whenever a nonzero one is given and equals 16 (local0) when the argument
is absent or `0` (Python `or` treats `0` as absent). -/
theorem C4_proto_facility_defaults (env : Env) (pd vrs : Bool)
    (progname : String) (address : Option PyAddr) (proto facility : Option Int)
    (fmt datefmt : Option String) (b : SyslogBuilder)
    (hb : mkSyslogBuilder env pd vrs progname address proto facility fmt datefmt
      = .ok b) :
    (∀ p, proto = some p → p ≠ 0 → b.proto = p) ∧
    (proto = none ∨ proto = some 0 → b.proto = 2) ∧
    (∀ fc, facility = some fc → fc ≠ 0 → b.facility = fc) ∧
    (facility = none ∨ facility = some 0 → b.facility = 16) := by
  obtain ⟨hp, hf⟩ := mkSyslogBuilder_fields env pd vrs progname address proto
    facility fmt datefmt b hb
  refine ⟨fun p hps hpn => ?_, fun hpd => ?_, fun fc hfs hfn => ?_, fun hfd => ?_⟩
  · rw [hp, hps, pyOrInt_some_of_ne p 2 hpn]
  · rw [hp, pyOrInt_default proto 2 hpd]
  · rw [hf, hfs, pyOrInt_some_of_ne fc FACILITY hfn]
  · rw [hf, pyOrInt_default facility FACILITY hfd]; rfl

/-- C4 witness: explicit nonzero proto/facility at a concrete builder. -/
theorem C4_proto_facility_defaults_witness :
    mkSyslogBuilder (fun _ => none) false false "prog" none (some 1) (some 3)
        none none
      = .ok { progname := "prog", environ := "default", fmt := none,
              datefmt := none, facility := 3, address := .path "/dev/log",
              proto := 1 } ∧
    ((1 : Int) ≠ 0 ∧ (3 : Int) ≠ 0) ∧
    (∀ b, mkSyslogBuilder (fun _ => none) false false "prog" none (some 1)
        (some 3) none none = .ok b → b.proto = 1 ∧ b.facility = 3) :=
  ⟨rfl, ⟨by decide, by decide⟩, fun b hb =>
    ⟨(C4_proto_facility_defaults (fun _ => none) false false "prog" none
        (some 1) (some 3) none none b hb).1 1 rfl (by decide),
     (C4_proto_facility_defaults (fun _ => none) false false "prog" none
        (some 1) (some 3) none none b hb).2.2.1 3 rfl (by decide)⟩⟩

/-! ## C10 — empty-string fmt/datefmt treated as absent -/

/-- C10: in all three builders, passing the empty string as `fmt` or
`datefmt` behaves exactly as omitting the argument — the truthiness test
(`if not fmt:` / `if not datefmt:`) substitutes the default. -/
theorem C10_empty_string_as_absent (progname hostname : String)
    (fmt datefmt : Option String) (b : SyslogBuilder) :
    (setup_default_handler progname (some "") datefmt
      = setup_default_handler progname none datefmt) ∧
    (setup_default_handler progname fmt (some "")
      = setup_default_handler progname fmt none) ∧
    (get_formatter { b with fmt := some "" }
      = get_formatter { b with fmt := none }) ∧
    (get_formatter { b with datefmt := some "" }
      = get_formatter { b with datefmt := none }) ∧
    (cloud_get_formatter
        { progname := progname, hostname := hostname, fmt := some "",
          datefmt := datefmt }
      = cloud_get_formatter
        { progname := progname, hostname := hostname, fmt := none,
          datefmt := datefmt }) ∧
    (cloud_get_formatter
        { progname := progname, hostname := hostname, fmt := fmt,
          datefmt := some "" }
      = cloud_get_formatter
        { progname := progname, hostname := hostname, fmt := fmt,
          datefmt := none }) := by
  refine ⟨rfl, rfl, ?_, ?_, rfl, rfl⟩
  · by_cases hd : b.environ = "darwin" <;>
      simp [get_formatter, get_osx_formatter, get_default_formatter, pyOr, hd]
  · by_cases hd : b.environ = "darwin" <;>
      simp [get_formatter, get_osx_formatter, get_default_formatter, pyOr, hd]

/-! ## Dispatcher lemmas -/

theorem attachHandlers_ok_of_buildAll (imports : Imports) (progname : String)
    (fmt datefmt : Option String) :
    ∀ (hs : List String) (l : List Handler) (root : RootLogger),
      buildAll imports progname fmt datefmt hs = .ok l →
      attachHandlers imports progname fmt datefmt hs root
        = ({ root with handlers := root.handlers ++ l }, none)
  | [], l, root, h => by
    simp only [buildAll, Except.ok.injEq] at h
    subst h
    simp [attachHandlers]
  | hd :: rest, l, root, h => by
    unfold buildAll at h
    cases hbh : buildHandler imports progname fmt datefmt hd with
    | error e => rw [hbh] at h; exact absurd h (by simp)
    | ok b =>
      rw [hbh] at h
      cases hba : buildAll imports progname fmt datefmt rest with
      | error e => rw [hba] at h; exact absurd h (by simp)
      | ok tl =>
        rw [hba] at h
        simp only [Except.ok.injEq] at h
        subst h
        unfold attachHandlers
        rw [hbh]
        dsimp only
        rw [attachHandlers_ok_of_buildAll imports progname fmt datefmt rest tl
          { root with handlers := root.handlers ++ [b] } hba]
        simp

theorem attachHandlers_fail (imports : Imports) (progname : String)
    (fmt datefmt : Option String) (hs1 : List String) (h : String)
    (hs2 : List String) (l : List Handler) (e : PyError) (root : RootLogger)
    (h1 : buildAll imports progname fmt datefmt hs1 = .ok l)
    (h2 : buildHandler imports progname fmt datefmt h = .error e) :
    attachHandlers imports progname fmt datefmt (hs1 ++ h :: hs2) root
      = ({ root with handlers := root.handlers ++ l }, some e) := by
  induction hs1 generalizing l root with
  | nil =>
    simp only [buildAll, Except.ok.injEq] at h1
    subst h1
    simp only [List.nil_append]
    unfold attachHandlers
    rw [h2]
    simp
  | cons hd rest ih =>
    unfold buildAll at h1
    cases hbh : buildHandler imports progname fmt datefmt hd with
    | error e2 => rw [hbh] at h1; exact absurd h1 (by simp)
    | ok b =>
      rw [hbh] at h1
      cases hba : buildAll imports progname fmt datefmt rest with
      | error e2 => rw [hba] at h1; exact absurd h1 (by simp)
      | ok tl =>
        rw [hba] at h1
        simp only [Except.ok.injEq] at h1
        subst h1
        simp only [List.cons_append]
        unfold attachHandlers
        rw [hbh]
        dsimp only
        rw [ih tl { root with handlers := root.handlers ++ [b] } hba]
        simp

/-- Shared conclusion for C7/C9: when the prefix `hs1` builds successfully
and handler `h` fails to build, `setup_logging` returns the error and the
root logger keeps exactly the prefix handlers, with its level untouched. -/
theorem setup_logging_fail_eq (imports : Imports) (progname level : String)
    (fmt datefmt : Option String) (root : RootLogger) (hs1 : List String)
    (h : String) (hs2 : List String) (l : List Handler) (e : PyError)
    (h1 : buildAll imports progname fmt datefmt hs1 = .ok l)
    (h2 : buildHandler imports progname fmt datefmt h = .error e) :
    setup_logging imports progname level (hs1 ++ h :: hs2) fmt datefmt root
      = ({ root with handlers := root.handlers ++ l }, some e) := by
  unfold setup_logging
  rw [attachHandlers_fail imports progname fmt datefmt hs1 h hs2 l e root h1 h2]

theorem buildAll_ok_length (imports : Imports) (progname : String)
    (fmt datefmt : Option String) :
    ∀ (hs : List String) (l : List Handler),
      buildAll imports progname fmt datefmt hs = .ok l →
      l.length = hs.length
  | [], l, h => by
    simp only [buildAll, Except.ok.injEq] at h
    subst h
    rfl
  | hd :: rest, l, h => by
    unfold buildAll at h
    cases hbh : buildHandler imports progname fmt datefmt hd with
    | error e => rw [hbh] at h; exact absurd h (by simp)
    | ok b =>
      rw [hbh] at h
      cases hba : buildAll imports progname fmt datefmt rest with
      | error e => rw [hba] at h; exact absurd h (by simp)
      | ok tl =>
        rw [hba] at h
        simp only [Except.ok.injEq] at h
        subst h
        simp [buildAll_ok_length imports progname fmt datefmt rest tl hba]

theorem strContains_of_append (a t b : String) : strContains (a ++ (t ++ b)) t :=
  ⟨a, b, rfl⟩

/-! ## C5 — unknown handler names -/

/-- C5: for a handler name other than `stream` whose place in the list is
reached (the names before it build successfully): if the module
`ulogger.{h}` cannot be imported, `setup_logging` raises a `ULoggerError`
whose message contains `Unsupported log handler` and names `h`; if the
module imports but has no `get_handler` attribute, it raises a
`ULoggerError` stating `get_handler` is not implemented for `h`. -/
theorem C5_unknown_handler_errors (imports : Imports) (progname level : String)
    (fmt datefmt : Option String) (root : RootLogger) (hs1 hs2 : List String)
    (h : String) (l : List Handler)
    (hpre : buildAll imports progname fmt datefmt hs1 = .ok l)
    (hns : h ≠ "stream") :
    (imports ("ulogger." ++ h) = none →
      setup_logging imports progname level (hs1 ++ h :: hs2) fmt datefmt root
        = ({ root with handlers := root.handlers ++ l },
           some (.uloggerError ("Unsupported log handler: \"" ++ (h ++ "\".")))) ∧
      strContains ("Unsupported log handler: \"" ++ (h ++ "\"."))
        "Unsupported log handler" ∧
      strContains ("Unsupported log handler: \"" ++ (h ++ "\".")) h) ∧
    (∀ m, imports ("ulogger." ++ h) = some m → m.get_handler = none →
      setup_logging imports progname level (hs1 ++ h :: hs2) fmt datefmt root
        = ({ root with handlers := root.handlers ++ l },
           some (.uloggerError
             ("\"get_handler\" function not implemented for \"" ++ (h ++ "\".")))) ∧
      strContains ("\"get_handler\" function not implemented for \"" ++ (h ++ "\"."))
        "\"get_handler\" function not implemented" ∧
      strContains ("\"get_handler\" function not implemented for \"" ++ (h ++ "\"."))
        h) := by
  constructor
  · intro himp
    have hb : buildHandler imports progname fmt datefmt h
        = .error (.uloggerError ("Unsupported log handler: \"" ++ (h ++ "\".")))
      := by simp [buildHandler, hns, himp]
    exact ⟨setup_logging_fail_eq imports progname level fmt datefmt root hs1 h
        hs2 l _ hpre hb,
      ⟨"", ": \"" ++ (h ++ "\"."), rfl⟩,
      strContains_of_append "Unsupported log handler: \"" h "\"."⟩
  · intro m himp hga
    have hb : buildHandler imports progname fmt datefmt h
        = .error (.uloggerError
            ("\"get_handler\" function not implemented for \"" ++ (h ++ "\".")))
      := by simp [buildHandler, hns, himp, hga]
    exact ⟨setup_logging_fail_eq imports progname level fmt datefmt root hs1 h
        hs2 l _ hpre hb,
      ⟨"", " for \"" ++ (h ++ "\"."), rfl⟩,
      strContains_of_append "\"get_handler\" function not implemented for \"" h
        "\"."⟩

/-- C5 witness: `setup_logging('x', 'INFO', ['notahandler'])` with no
importable modules, and a module that lacks `get_handler`. -/
theorem C5_unknown_handler_errors_witness :
    (buildAll (fun _ => none) "x" none none [] = .ok [] ∧
      ("notahandler" : String) ≠ "stream" ∧
      setup_logging (fun _ => none) "x" "INFO" ([] ++ "notahandler" :: []) none
          none { handlers := [], level := 30 }
        = ({ handlers := [], level := 30 },
           some (.uloggerError "Unsupported log handler: \"notahandler\"."))) ∧
    (setup_logging
          (fun p => if p = "ulogger.nogh" then some { get_handler := none } else none)
          "x" "INFO" ([] ++ "nogh" :: []) none none { handlers := [], level := 30 }
        = ({ handlers := [], level := 30 },
           some (.uloggerError
             "\"get_handler\" function not implemented for \"nogh\"."))) :=
  ⟨⟨rfl, by decide,
    ((C5_unknown_handler_errors (fun _ => none) "x" "INFO" none none
        { handlers := [], level := 30 } [] [] "notahandler" [] rfl
        (by decide)).1 rfl).1⟩,
   ((C5_unknown_handler_errors
        (fun p => if p = "ulogger.nogh" then some { get_handler := none } else none)
        "x" "INFO" none none { handlers := [], level := 30 } [] [] "nogh" [] rfl
        (by decide)).2 { get_handler := none } rfl rfl).1⟩

/-! ## C6 — successful setup attaches all handlers in order -/

/-- C6: when every entry in the handler list builds successfully, exactly
one handler per entry is appended to the root logger's handler list, in
list order, and afterwards the root logger's level is set from the given
level name. -/
theorem C6_all_handlers_attached (imports : Imports) (progname level : String)
    (fmt datefmt : Option String) (root : RootLogger) (hs : List String)
    (l : List Handler) (lv : Int)
    (hall : buildAll imports progname fmt datefmt hs = .ok l)
    (hlv : getLevelName level = some lv) :
    setup_logging imports progname level hs fmt datefmt root
      = ({ handlers := root.handlers ++ l, level := lv }, none) ∧
    l.length = hs.length := by
  constructor
  · unfold setup_logging
    rw [attachHandlers_ok_of_buildAll imports progname fmt datefmt hs l root hall]
    dsimp only
    rw [hlv]
  · exact buildAll_ok_length imports progname fmt datefmt hs l hall

/-- C6 witness: `setup_logging('x', 'INFO', ['stream', 'syslog'])` against
the concrete import environment yields exactly those two handlers, in
order, and level 20. -/
theorem C6_all_handlers_attached_witness :
    buildAll demoImports "x" none none ["stream", "syslog"]
      = .ok
        [.stream
            { fmt := "%(asctime)s.%(msecs)03dZ x (%(process)d) %(levelname)s: %(message)s",
              datefmt := some "%Y-%m-%dT%H:%M:%S" },
         .syslog (.path "/dev/log") 16 2
            { fmt := "%(asctime)s.%(msecs)03dZ x (%(process)d): %(message)s",
              datefmt := some "%Y-%m-%dT%H:%M:%S" }] ∧
    getLevelName "INFO" = some 20 ∧
    setup_logging demoImports "x" "INFO" ["stream", "syslog"] none none
        { handlers := [], level := 30 }
      = ({ handlers :=
            [.stream
                { fmt := "%(asctime)s.%(msecs)03dZ x (%(process)d) %(levelname)s: %(message)s",
                  datefmt := some "%Y-%m-%dT%H:%M:%S" },
             .syslog (.path "/dev/log") 16 2
                { fmt := "%(asctime)s.%(msecs)03dZ x (%(process)d): %(message)s",
                  datefmt := some "%Y-%m-%dT%H:%M:%S" }],
           level := 20 }, none) :=
  ⟨rfl, rfl,
    (C6_all_handlers_attached demoImports "x" "INFO" none none
        { handlers := [], level := 30 } ["stream", "syslog"] _ 20 rfl rfl).1⟩

/-! ## C7 — error propagation without rollback -/

/-- C7: when the names before `h` all build successfully and building `h`
raises, the error propagates out of `setup_logging` and the handlers
already built remain attached to the root logger — no removal or
rollback. -/
theorem C7_error_propagates_no_rollback (imports : Imports)
    (progname level : String) (fmt datefmt : Option String) (root : RootLogger)
    (hs1 : List String) (h : String) (hs2 : List String) (l : List Handler)
    (e : PyError)
    (h1 : buildAll imports progname fmt datefmt hs1 = .ok l)
    (h2 : buildHandler imports progname fmt datefmt h = .error e) :
    setup_logging imports progname level (hs1 ++ h :: hs2) fmt datefmt root
      = ({ root with handlers := root.handlers ++ l }, some e) :=
  setup_logging_fail_eq imports progname level fmt datefmt root hs1 h hs2 l e
    h1 h2

/-- C7 witness: `['stream', 'bogus', 'syslog']` — the stream handler stays
attached, the unsupported-handler error propagates. -/
theorem C7_error_propagates_no_rollback_witness :
    buildAll demoImports "x" none none ["stream"]
      = .ok
        [.stream
            { fmt := "%(asctime)s.%(msecs)03dZ x (%(process)d) %(levelname)s: %(message)s",
              datefmt := some "%Y-%m-%dT%H:%M:%S" }] ∧
    buildHandler demoImports "x" none none "bogus"
      = .error (.uloggerError "Unsupported log handler: \"bogus\".") ∧
    setup_logging demoImports "x" "INFO" (["stream"] ++ "bogus" :: ["syslog"])
        none none { handlers := [], level := 30 }
      = ({ handlers :=
            [.stream
                { fmt := "%(asctime)s.%(msecs)03dZ x (%(process)d) %(levelname)s: %(message)s",
                  datefmt := some "%Y-%m-%dT%H:%M:%S" }],
           level := 30 },
         some (.uloggerError "Unsupported log handler: \"bogus\".")) :=
  ⟨rfl, rfl,
    C7_error_propagates_no_rollback demoImports "x" "INFO" none none
      { handlers := [], level := 30 } ["stream"] "bogus" ["syslog"] _ _ rfl rfl⟩

/-! ## C9 — level untouched on handler failure -/

/-- C9: if building a handler in the list raises, the root logger's level
is unchanged by the `setup_logging` call — the level is applied only
after every handler has been built and attached. -/
theorem C9_level_unchanged_on_failure (imports : Imports)
    (progname level : String) (fmt datefmt : Option String) (root : RootLogger)
    (hs1 : List String) (h : String) (hs2 : List String) (l : List Handler)
    (e : PyError)
    (h1 : buildAll imports progname fmt datefmt hs1 = .ok l)
    (h2 : buildHandler imports progname fmt datefmt h = .error e) :
    (setup_logging imports progname level (hs1 ++ h :: hs2) fmt datefmt
        root).1.level
      = root.level := by
  rw [setup_logging_fail_eq imports progname level fmt datefmt root hs1 h hs2 l
    e h1 h2]

/-- C9 witness: the failing `['stream', 'nosuch']` call leaves the level
at its prior value 30 even though `INFO` (20) was requested. -/
theorem C9_level_unchanged_on_failure_witness :
    buildAll demoImports "x" none none ["stream"]
      = .ok
        [.stream
            { fmt := "%(asctime)s.%(msecs)03dZ x (%(process)d) %(levelname)s: %(message)s",
              datefmt := some "%Y-%m-%dT%H:%M:%S" }] ∧
    buildHandler demoImports "x" none none "nosuch"
      = .error (.uloggerError "Unsupported log handler: \"nosuch\".") ∧
    (setup_logging demoImports "x" "INFO" (["stream"] ++ "nosuch" :: []) none
        none { handlers := [], level := 30 }).1.level = 30 :=
  ⟨rfl, rfl,
    C9_level_unchanged_on_failure demoImports "x" "INFO" none none
      { handlers := [], level := 30 } ["stream"] "nosuch" [] _ _ rfl rfl⟩

/-! ## C8 — cloud metadata fetch -/

/-- C8: a single-key metadata fetch attempts exactly one request (to the
endpoint URL built from the data type and key) and raises the
`GoogleCloudError` exactly when the GET raises a transport error, when
the status indicates failure (4xx/5xx), or when the body is empty after
trimming; the error message contains the failing URL (and, for wrapped
request errors, the key). Otherwise it returns the body. -/
theorem C8_metadata_single_fetch (http : Http) (data_type key : String) :
    ((get_metadata http data_type key).2 = [metadataEndpoint data_type key]) ∧
    (∀ e, http (metadataEndpoint data_type key) = .exn e →
      ∃ m, (get_metadata http data_type key).1 = .error (.googleCloudError m) ∧
        strContains m (metadataEndpoint data_type key) ∧ strContains m key) ∧
    (∀ status body, http (metadataEndpoint data_type key) = .resp status body →
      (raiseForStatusFails status = true →
        ∃ m, (get_metadata http data_type key).1 = .error (.googleCloudError m) ∧
          strContains m (metadataEndpoint data_type key) ∧ strContains m key) ∧
      (raiseForStatusFails status = false → pyTrim body.data = [] →
        ∃ m, (get_metadata http data_type key).1 = .error (.googleCloudError m) ∧
          strContains m (metadataEndpoint data_type key)) ∧
      (raiseForStatusFails status = false → pyTrim body.data ≠ [] →
        (get_metadata http data_type key).1 = .ok body)) := by
  refine ⟨rfl, fun e he => ?_, fun status body hr => ⟨fun hst => ?_,
    fun hst hb => ?_, fun hst hb => ?_⟩⟩
  · exact ⟨("Could not fetch \"" ++ (key ++ ("\" from \"" ++ (data_type
        ++ "\" metadata using \"")))) ++ (metadataEndpoint data_type key
        ++ ("\"." ++ ("Error: " ++ e))),
      by simp [get_metadata, he],
      strContains_of_append _ (metadataEndpoint data_type key) _,
      ⟨"Could not fetch \"",
        ("\" from \"" ++ (data_type ++ "\" metadata using \""))
          ++ (metadataEndpoint data_type key ++ ("\"." ++ ("Error: " ++ e))),
        by simp only [String.append_assoc]⟩⟩
  · exact ⟨("Could not fetch \"" ++ (key ++ ("\" from \"" ++ (data_type
        ++ "\" metadata using \"")))) ++ (metadataEndpoint data_type key
        ++ ("\"." ++ ("Error: " ++ (toString status ++ " Error")))),
      by simp [get_metadata, hr, hst],
      strContains_of_append _ (metadataEndpoint data_type key) _,
      ⟨"Could not fetch \"",
        ("\" from \"" ++ (data_type ++ "\" metadata using \""))
          ++ (metadataEndpoint data_type key
            ++ ("\"." ++ ("Error: " ++ (toString status ++ " Error")))),
        by simp only [String.append_assoc]⟩⟩
  · exact ⟨"Error when fetching metadata from \""
        ++ (metadataEndpoint data_type key
          ++ "\": server returned an empty value."),
      by simp [get_metadata, hr, hst, hb],
      strContains_of_append _ (metadataEndpoint data_type key) _⟩
  · simp [get_metadata, hr, hst, hb]

/-- C8 witness: a transport error, a 404, an all-whitespace body, and a
successful fetch, each at concrete inputs. -/
theorem C8_metadata_single_fetch_witness :
    (∃ m, (get_metadata (fun _ => .exn "timeout") "project" "project-id").1
        = .error (.googleCloudError m) ∧
      strContains m (metadataEndpoint "project" "project-id") ∧
      strContains m "project-id") ∧
    (∃ m, (get_metadata (fun _ => .resp 404 "nf") "instance" "name").1
        = .error (.googleCloudError m) ∧
      strContains m (metadataEndpoint "instance" "name") ∧
      strContains m "name") ∧
    (∃ m, (get_metadata (fun _ => .resp 200 "   ") "instance" "id").1
        = .error (.googleCloudError m) ∧
      strContains m (metadataEndpoint "instance" "id")) ∧
    ((get_metadata (fun _ => .resp 200 "us-central1-a") "instance" "zone").1
      = .ok "us-central1-a") ∧
    ((get_metadata (fun _ => .resp 200 "us-central1-a") "instance" "zone").2
      = [metadataEndpoint "instance" "zone"]) :=
  ⟨(C8_metadata_single_fetch (fun _ => .exn "timeout") "project"
      "project-id").2.1 "timeout" rfl,
   ((C8_metadata_single_fetch (fun _ => .resp 404 "nf") "instance"
      "name").2.2 404 "nf" rfl).1 (by decide),
   ((C8_metadata_single_fetch (fun _ => .resp 200 "   ") "instance"
      "id").2.2 200 "   " rfl).2.1 (by decide) (by decide),
   ((C8_metadata_single_fetch (fun _ => .resp 200 "us-central1-a") "instance"
      "zone").2.2 200 "us-central1-a" rfl).2.2 (by decide) (by decide),
   (C8_metadata_single_fetch (fun _ => .resp 200 "us-central1-a") "instance"
      "zone").1⟩

end ULogger

